import Mathlib

/-!
Verification of the flow-control core in `flowcontrol/flow_controller.go`.

The Go code works on `protocol.ByteCount`, an unsigned 64-bit integer, so all
byte counts and offsets are embedded as `Nat` with explicit reduction modulo
`2 ^ 64` wherever the Go arithmetic can wrap.  `time.Time` values are embedded
as `Int` nanosecond timestamps, with `Option Int` for fields whose Go zero
value is meaningful (`time.Time.IsZero`), and `time.Duration` differences as
`Int`.  The RTT estimator and the current wall-clock time are inputs of the
operations that read them.
-/

/-- Modulus of Go's unsigned 64-bit arithmetic (`protocol.ByteCount` is `uint64`). -/
def U64 : Nat := 2 ^ 64

/-- Go `uint64` addition: wraps modulo `2 ^ 64`. -/
def add64 (a b : Nat) : Nat := (a + b) % U64

/-- Go `uint64` subtraction `a - b`: wraps modulo `2 ^ 64` when `b > a`
(for operands below `2 ^ 64` this is exactly the machine subtraction). -/
def sub64 (a b : Nat) : Nat := (a + U64 - b) % U64

/-- Modelled from the spec: the repository's `handshake.ConnectionParametersManager`
is not part of this excerpt; only the six getters the flow controller calls are
relevant, so it is embedded as a record of their (fixed, negotiated) values. -/
structure ConnectionParametersManager where
  getReceiveStreamFlowControlWindow : Nat
  getMaxReceiveStreamFlowControlWindow : Nat
  getReceiveConnectionFlowControlWindow : Nat
  getMaxReceiveConnectionFlowControlWindow : Nat
  getSendStreamFlowControlWindow : Nat
  getSendConnectionFlowControlWindow : Nat
deriving Repr, DecidableEq

/-- State of `flowController` (`flow_controller.go`).  `rttStats` is modelled as
an input to the operations that read it rather than a stored pointer. -/
structure FlowController where
  streamID : Nat
  connectionParameters : ConnectionParametersManager
  bytesSent : Nat := 0
  sendWindow : Nat := 0
  lastWindowUpdateTime : Option Int := none
  bytesRead : Nat := 0
  highestReceived : Nat := 0
  receiveWindow : Nat := 0
  receiveWindowIncrement : Nat := 0
  maxReceiveWindowIncrement : Nat := 0
deriving Repr, DecidableEq

/-- The error `ErrReceivedSmallerByteOffset`. -/
inductive FlowControlError where
  | receivedSmallerByteOffset
deriving Repr, DecidableEq

/-- Embeds `newFlowController`: seeds the receive window, the increment and the
maximum increment from the negotiated parameters of the scope. -/
def newFlowController (streamID : Nat)
    (connectionParameters : ConnectionParametersManager) : FlowController :=
  if streamID = 0 then
    { streamID := streamID
      connectionParameters := connectionParameters
      receiveWindow := connectionParameters.getReceiveConnectionFlowControlWindow
      receiveWindowIncrement := connectionParameters.getReceiveConnectionFlowControlWindow
      maxReceiveWindowIncrement := connectionParameters.getMaxReceiveConnectionFlowControlWindow }
  else
    { streamID := streamID
      connectionParameters := connectionParameters
      receiveWindow := connectionParameters.getReceiveStreamFlowControlWindow
      receiveWindowIncrement := connectionParameters.getReceiveStreamFlowControlWindow
      maxReceiveWindowIncrement := connectionParameters.getMaxReceiveStreamFlowControlWindow }

/-- Embeds `getSendWindow`: the stored send window, or the negotiated initial
send window of the scope while the stored one is still 0. -/
def getSendWindow (c : FlowController) : Nat :=
  if c.sendWindow = 0 then
    if c.streamID = 0 then
      c.connectionParameters.getSendConnectionFlowControlWindow
    else
      c.connectionParameters.getSendStreamFlowControlWindow
  else c.sendWindow

/-- Embeds `AddBytesSent` (`bytesSent += n`, uint64). -/
def AddBytesSent (c : FlowController) (n : Nat) : FlowController :=
  { c with bytesSent := add64 c.bytesSent n }

/-- Embeds `UpdateSendWindow`: raises the send window to `newOffset` when that
is strictly larger, and reports whether an update happened. -/
def UpdateSendWindow (c : FlowController) (newOffset : Nat) : FlowController × Bool :=
  if newOffset > c.sendWindow then
    ({ c with sendWindow := newOffset }, true)
  else
    (c, false)

/-- Embeds `SendWindowSize`: remaining send capacity, guarded against underflow. -/
def SendWindowSize (c : FlowController) : Nat :=
  let sendWindow := getSendWindow c
  if c.bytesSent > sendWindow then 0
  else sendWindow - c.bytesSent

/-- Embeds `SendWindowOffset`. -/
def SendWindowOffset (c : FlowController) : Nat :=
  getSendWindow c

/-- Embeds `UpdateHighestReceived`: equal offset is a no-op, a larger offset
advances `highestReceived` and returns the increment, a smaller offset returns
`ErrReceivedSmallerByteOffset`. -/
def UpdateHighestReceived (c : FlowController) (byteOffset : Nat) :
    FlowController × Nat × Option FlowControlError :=
  if byteOffset = c.highestReceived then
    (c, 0, none)
  else if byteOffset > c.highestReceived then
    ({ c with highestReceived := byteOffset }, byteOffset - c.highestReceived, none)
  else
    (c, 0, some FlowControlError.receivedSmallerByteOffset)

/-- Embeds `IncrementHighestReceived` (`highestReceived += increment`, uint64). -/
def IncrementHighestReceived (c : FlowController) (increment : Nat) : FlowController :=
  { c with highestReceived := add64 c.highestReceived increment }

/-- Embeds `AddBytesRead` (`bytesRead += n`, uint64). -/
def AddBytesRead (c : FlowController) (n : Nat) : FlowController :=
  { c with bytesRead := add64 c.bytesRead n }

/-- Embeds `maybeAdjustWindowIncrement`.  `now` is the current time and
`smoothedRTT` the value `rttStats.SmoothedRTT()` reports (0 before any sample).
The doubling `2*c.receiveWindowIncrement` is uint64 and hence taken mod `2^64`;
`utils.MinByteCount` is `min`.  The debug-log block touches no state. -/
def maybeAdjustWindowIncrement (c : FlowController) (now : Int) (smoothedRTT : Nat) :
    FlowController :=
  match c.lastWindowUpdateTime with
  | none => c
  | some lastWindowUpdateTime =>
    if smoothedRTT = 0 then c
    else if now - lastWindowUpdateTime ≥ 2 * (smoothedRTT : Int) then c
    else
      { c with receiveWindowIncrement := min (2 * c.receiveWindowIncrement % U64) c.maxReceiveWindowIncrement }

/-- Embeds `MaybeUpdateWindow`: `diff := receiveWindow - bytesRead` is the Go
uint64 subtraction (it wraps when `bytesRead > receiveWindow`); when
`diff < receiveWindowIncrement / 2` the increment is possibly adjusted, the
update time recorded, and the window extended to `bytesRead + increment`
(uint64 addition). -/
def MaybeUpdateWindow (c : FlowController) (now : Int) (smoothedRTT : Nat) :
    FlowController × Bool × Nat :=
  let diff := sub64 c.receiveWindow c.bytesRead
  if diff < c.receiveWindowIncrement / 2 then
    let c1 := maybeAdjustWindowIncrement c now smoothedRTT
    let c2 := { c1 with
      lastWindowUpdateTime := some now
      receiveWindow := add64 c1.bytesRead c1.receiveWindowIncrement }
    (c2, true, c2.receiveWindow)
  else
    (c, false, 0)

/-- Embeds `CheckFlowControlViolation`: true iff more was received than the
announced window allows. -/
def CheckFlowControlViolation (c : FlowController) : Bool :=
  if c.highestReceived > c.receiveWindow then true
  else false

/-- One call of the flow controller interface, with the ambient inputs (time,
smoothed RTT) of the calls that read them.  The query methods are pure reads in
the Go code, so as state transformers they are the identity. -/
inductive FlowOp where
  | addBytesSent (n : Nat)
  | updateSendWindow (newOffset : Nat)
  | sendWindowSize
  | sendWindowOffset
  | updateHighestReceived (byteOffset : Nat)
  | incrementHighestReceived (increment : Nat)
  | addBytesRead (n : Nat)
  | maybeUpdateWindow (now : Int) (smoothedRTT : Nat)
  | checkFlowControlViolation
deriving Repr, DecidableEq

/-- State transition of one interface call. -/
def stepOp (c : FlowController) : FlowOp → FlowController
  | FlowOp.addBytesSent n => AddBytesSent c n
  | FlowOp.updateSendWindow newOffset => (UpdateSendWindow c newOffset).1
  | FlowOp.sendWindowSize => c
  | FlowOp.sendWindowOffset => c
  | FlowOp.updateHighestReceived byteOffset => (UpdateHighestReceived c byteOffset).1
  | FlowOp.incrementHighestReceived increment => IncrementHighestReceived c increment
  | FlowOp.addBytesRead n => AddBytesRead c n
  | FlowOp.maybeUpdateWindow now smoothedRTT => (MaybeUpdateWindow c now smoothedRTT).1
  | FlowOp.checkFlowControlViolation => c

/-- Runs a sequence of interface calls. -/
def runOps (c : FlowController) : List FlowOp → FlowController
  | [] => c
  | op :: ops => runOps (stepOp c op) ops

/-- Concrete negotiated parameters used by witnesses: stream windows 100 (max
1000), connection windows 1000 (max 10000), send windows 100. -/
def testParams : ConnectionParametersManager := ⟨100, 1000, 1000, 10000, 100, 100⟩

/-- The adjustment step either leaves the state unchanged or only replaces the
increment by `min (2*increment mod 2^64) maxIncrement`. -/
theorem maybeAdjustWindowIncrement_cases (c : FlowController) (now : Int) (smoothedRTT : Nat) :
    maybeAdjustWindowIncrement c now smoothedRTT = c ∨
    maybeAdjustWindowIncrement c now smoothedRTT =
      { c with receiveWindowIncrement := min (2 * c.receiveWindowIncrement % U64) c.maxReceiveWindowIncrement } := by
  unfold maybeAdjustWindowIncrement
  split
  · exact Or.inl rfl
  · split
    · exact Or.inl rfl
    · split
      · exact Or.inl rfl
      · exact Or.inr rfl

/-- The adjustment step does not touch `bytesRead`. -/
theorem maybeAdjustWindowIncrement_bytesRead (c : FlowController) (now : Int) (smoothedRTT : Nat) :
    (maybeAdjustWindowIncrement c now smoothedRTT).bytesRead = c.bytesRead := by
  rcases maybeAdjustWindowIncrement_cases c now smoothedRTT with h | h <;> rw [h]

/-- The adjustment step does not touch `maxReceiveWindowIncrement`. -/
theorem maybeAdjustWindowIncrement_max (c : FlowController) (now : Int) (smoothedRTT : Nat) :
    (maybeAdjustWindowIncrement c now smoothedRTT).maxReceiveWindowIncrement = c.maxReceiveWindowIncrement := by
  rcases maybeAdjustWindowIncrement_cases c now smoothedRTT with h | h <;> rw [h]

/-- After the adjustment step the increment is still bounded by the maximum. -/
theorem maybeAdjustWindowIncrement_le_max (c : FlowController) (now : Int) (smoothedRTT : Nat)
    (h : c.receiveWindowIncrement ≤ c.maxReceiveWindowIncrement) :
    (maybeAdjustWindowIncrement c now smoothedRTT).receiveWindowIncrement ≤ c.maxReceiveWindowIncrement := by
  rcases maybeAdjustWindowIncrement_cases c now smoothedRTT with h' | h' <;> rw [h']
  · exact h
  · exact min_le_right _ _

/-- In the overflow-free regime the adjustment step never shrinks the increment. -/
theorem maybeAdjustWindowIncrement_ge (c : FlowController) (now : Int) (smoothedRTT : Nat)
    (h1 : c.receiveWindowIncrement ≤ c.maxReceiveWindowIncrement)
    (h2 : 2 * c.receiveWindowIncrement < U64) :
    c.receiveWindowIncrement ≤ (maybeAdjustWindowIncrement c now smoothedRTT).receiveWindowIncrement := by
  rcases maybeAdjustWindowIncrement_cases c now smoothedRTT with h' | h' <;> rw [h']
  dsimp only
  rw [Nat.mod_eq_of_lt h2]
  omega

/-- Runs `UpdateSendWindow` once per offset, collecting the returned booleans. -/
def runUpdateSendWindow (c : FlowController) : List Nat → FlowController × List Bool
  | [] => (c, [])
  | newOffset :: rest =>
    let r := UpdateSendWindow c newOffset
    let t := runUpdateSendWindow r.1 rest
    (t.1, r.2 :: t.2)

/-- Modelled from the spec (claim C5's words): starting from a stored watermark
`w`, each call returns true iff its offset strictly exceeds the maximum seen so
far. -/
def sendWindowReturnsSpec (w : Nat) : List Nat → List Bool
  | [] => []
  | newOffset :: rest => decide (w < newOffset) :: sendWindowReturnsSpec (max w newOffset) rest

/-- Running `UpdateSendWindow` over a list of offsets folds `max` over them and
returns exactly the booleans the specification predicts; no other field moves. -/
theorem runUpdateSendWindow_spec (offsets : List Nat) (c : FlowController) :
    (runUpdateSendWindow c offsets).1 = { c with sendWindow := offsets.foldl max c.sendWindow } ∧
    (runUpdateSendWindow c offsets).2 = sendWindowReturnsSpec c.sendWindow offsets := by
  induction offsets generalizing c with
  | nil => exact ⟨rfl, rfl⟩
  | cons newOffset rest ih =>
    unfold runUpdateSendWindow sendWindowReturnsSpec UpdateSendWindow
    by_cases h : newOffset > c.sendWindow
    · rw [if_pos h]
      dsimp only
      have hmax : max c.sendWindow newOffset = newOffset := Nat.max_eq_right (Nat.le_of_lt h)
      constructor
      · rw [(ih _).1]
        dsimp only
        rw [List.foldl_cons, hmax]
      · rw [(ih _).2]
        dsimp only
        rw [hmax, decide_eq_true h]
    · rw [if_neg h]
      dsimp only
      have hmax : max c.sendWindow newOffset = c.sendWindow := Nat.max_eq_left (Nat.not_lt.mp h)
      constructor
      · rw [(ih _).1, List.foldl_cons, hmax]
      · rw [(ih _).2, hmax, decide_eq_false h]

/-- A freshly constructed controller has send window 0. -/
theorem newFlowController_sendWindow (streamID : Nat) (p : ConnectionParametersManager) :
    (newFlowController streamID p).sendWindow = 0 := by
  unfold newFlowController
  split <;> rfl

/-- Claim C5: starting from a freshly constructed controller (sendWindow 0),
any sequence of UpdateSendWindow calls leaves sendWindow equal to the maximum
offset seen so far (every other field untouched), and each call returns true
iff its offset strictly exceeded the previously stored sendWindow; smaller or
equal offsets change nothing.  Quantifying over all offset lists covers every
prefix of a longer run. -/
theorem C5_updateSendWindow_watermark (streamID : Nat) (p : ConnectionParametersManager)
    (offsets : List Nat) :
    (runUpdateSendWindow (newFlowController streamID p) offsets).1 =
      { newFlowController streamID p with sendWindow := offsets.foldl max 0 } ∧
    (runUpdateSendWindow (newFlowController streamID p) offsets).2 =
      sendWindowReturnsSpec 0 offsets := by
  have h := runUpdateSendWindow_spec offsets (newFlowController streamID p)
  rw [newFlowController_sendWindow] at h
  exact h

/-- Claim C6: UpdateHighestReceived is a trichotomy on the incoming offset:
equal offsets are a pure no-op returning (0, no error); larger offsets advance
highestReceived (only that field) and return the positive delta with no error;
smaller offsets return (0, ErrReceivedSmallerByteOffset) leaving every field
unchanged. -/
theorem C6_updateHighestReceived_trichotomy (c : FlowController) (byteOffset : Nat) :
    (byteOffset = c.highestReceived →
      UpdateHighestReceived c byteOffset = (c, 0, none)) ∧
    (c.highestReceived < byteOffset →
      UpdateHighestReceived c byteOffset =
        ({ c with highestReceived := byteOffset }, byteOffset - c.highestReceived, none)) ∧
    (byteOffset < c.highestReceived →
      UpdateHighestReceived c byteOffset = (c, 0, some FlowControlError.receivedSmallerByteOffset)) := by
  unfold UpdateHighestReceived
  refine ⟨fun h => by rw [if_pos h], fun h => ?_, fun h => ?_⟩
  · rw [if_neg (by omega), if_pos h]
  · rw [if_neg (by omega), if_neg (by omega)]

/-- Witness for C6: a controller with highestReceived 10, probed at offsets
10, 25 and 7, exercising all three branches of the theorem. -/
theorem C6_updateHighestReceived_trichotomy_witness :
    UpdateHighestReceived { streamID := 1, connectionParameters := testParams, highestReceived := 10 } 10 =
      ({ streamID := 1, connectionParameters := testParams, highestReceived := 10 }, 0, none) ∧
    UpdateHighestReceived { streamID := 1, connectionParameters := testParams, highestReceived := 10 } 25 =
      ({ streamID := 1, connectionParameters := testParams, highestReceived := 25 }, 15, none) ∧
    UpdateHighestReceived { streamID := 1, connectionParameters := testParams, highestReceived := 10 } 7 =
      ({ streamID := 1, connectionParameters := testParams, highestReceived := 10 }, 0,
        some FlowControlError.receivedSmallerByteOffset) :=
  ⟨(C6_updateHighestReceived_trichotomy _ 10).1 rfl,
   (C6_updateHighestReceived_trichotomy _ 25).2.1 (by decide),
   (C6_updateHighestReceived_trichotomy _ 7).2.2 (by decide)⟩

/-- Claim C7: SendWindowSize is the clamped remaining capacity
max(0, effectiveSendWindow - bytesSent), never negative or wrapped; the
effective window is sendWindow when non-zero, otherwise the negotiated initial
send window of the scope (connection for scopeID 0, stream otherwise); and
SendWindowOffset returns that same effective window. -/
theorem C7_sendWindowSize_clamped (c : FlowController) :
    ((SendWindowSize c : Int) = max 0 ((getSendWindow c : Int) - (c.bytesSent : Int))) ∧
    getSendWindow c =
      (if c.sendWindow = 0 then
        (if c.streamID = 0 then c.connectionParameters.getSendConnectionFlowControlWindow
         else c.connectionParameters.getSendStreamFlowControlWindow)
       else c.sendWindow) ∧
    SendWindowOffset c = getSendWindow c := by
  refine ⟨?_, rfl, rfl⟩
  simp only [SendWindowSize]
  split <;> omega

/-- Claim C8: CheckFlowControlViolation is true exactly when highestReceived
exceeds receiveWindow (it is a pure read of the state); with a connection-scope
controller constructed over initial window 1000, IncrementHighestReceived 1001
makes it report a violation while IncrementHighestReceived 1000 does not. -/
theorem C8_checkFlowControlViolation (c : FlowController) :
    (CheckFlowControlViolation c = true ↔ c.receiveWindow < c.highestReceived) ∧
    CheckFlowControlViolation (IncrementHighestReceived (newFlowController 0 testParams) 1001) = true ∧
    CheckFlowControlViolation (IncrementHighestReceived (newFlowController 0 testParams) 1000) = false := by
  refine ⟨?_, by decide, by decide⟩
  unfold CheckFlowControlViolation
  split <;> simp_all

/-- Claim C1: for every controller state, MaybeUpdateWindow returns due=true
iff receiveWindow - bytesRead (the code's unsigned 64-bit subtraction on these
fields) is below receiveWindowIncrement / 2; when due it sets receiveWindow to
bytesRead + I' (unsigned 64-bit addition), where I' is the possibly-grown
increment produced by the auto-tuning step, and returns that new receiveWindow
as the announced offset; when not due it performs no update and returns
(false, 0). -/
theorem C1_maybeUpdateWindow_threshold (c : FlowController) (now : Int) (smoothedRTT : Nat) :
    ((MaybeUpdateWindow c now smoothedRTT).2.1 = true ↔
      sub64 c.receiveWindow c.bytesRead < c.receiveWindowIncrement / 2) ∧
    ((MaybeUpdateWindow c now smoothedRTT).2.1 = true →
      (MaybeUpdateWindow c now smoothedRTT).1.receiveWindow =
        add64 c.bytesRead (maybeAdjustWindowIncrement c now smoothedRTT).receiveWindowIncrement ∧
      (MaybeUpdateWindow c now smoothedRTT).2.2 = (MaybeUpdateWindow c now smoothedRTT).1.receiveWindow) ∧
    ((MaybeUpdateWindow c now smoothedRTT).2.1 = false →
      MaybeUpdateWindow c now smoothedRTT = (c, false, 0)) := by
  simp only [MaybeUpdateWindow]
  split
  next h =>
    refine ⟨Iff.intro (fun _ => h) (fun _ => rfl), ?_, ?_⟩
    · intro _
      constructor
      · dsimp only
        rw [maybeAdjustWindowIncrement_bytesRead]
      · rfl
    · intro hf
      exact absurd hf (by simp)
  next h =>
    refine ⟨Iff.intro (fun ht => absurd ht (by simp)) (fun hc => absurd hc h), ?_, fun _ => rfl⟩
    intro ht
    exact absurd ht (by simp)

/-- Witness for C1: the spec's own end-to-end scenario (stream scope, initial
window 100, 60 bytes read: 40 remaining < 50, update due, new offset 160), and
a fresh controller where no update is due. -/
theorem C1_maybeUpdateWindow_threshold_witness :
    (MaybeUpdateWindow (AddBytesRead (newFlowController 1 testParams) 60) 5 0).2.1 = true ∧
    (MaybeUpdateWindow (AddBytesRead (newFlowController 1 testParams) 60) 5 0).1.receiveWindow = 160 ∧
    (MaybeUpdateWindow (AddBytesRead (newFlowController 1 testParams) 60) 5 0).2.2 = 160 ∧
    MaybeUpdateWindow (newFlowController 1 testParams) 5 0 = (newFlowController 1 testParams, false, 0) := by
  have hdue := (C1_maybeUpdateWindow_threshold (AddBytesRead (newFlowController 1 testParams) 60) 5 0).1.mpr (by decide)
  have heff := (C1_maybeUpdateWindow_threshold (AddBytesRead (newFlowController 1 testParams) 60) 5 0).2.1 hdue
  refine ⟨hdue, ?_, ?_, (C1_maybeUpdateWindow_threshold (newFlowController 1 testParams) 5 0).2.2 (by decide)⟩
  · rw [heff.1]; decide
  · rw [heff.2, heff.1]; decide

/-- Claim C10: whenever MaybeUpdateWindow takes its not-due branch it returns
exactly (false, 0) and leaves every field of the controller unchanged,
including lastWindowUpdateTime and receiveWindowIncrement: the auto-tuning
step is not invoked on this branch. -/
theorem C10_maybeUpdateWindow_notDue_noop (c : FlowController) (now : Int) (smoothedRTT : Nat)
    (h : ¬ sub64 c.receiveWindow c.bytesRead < c.receiveWindowIncrement / 2) :
    MaybeUpdateWindow c now smoothedRTT = (c, false, 0) := by
  simp only [MaybeUpdateWindow]
  rw [if_neg h]

/-- Witness for C10: a fresh stream controller (remaining 100 is not below 50). -/
theorem C10_maybeUpdateWindow_notDue_noop_witness :
    MaybeUpdateWindow (newFlowController 1 testParams) 5 7 = (newFlowController 1 testParams, false, 0) :=
  C10_maybeUpdateWindow_notDue_noop (newFlowController 1 testParams) 5 7 (by decide)

/-- Counterexample to claim C2 as stated: in the state with receiveWindow 100,
bytesRead 200 and increment 100, the remaining-window computation of
MaybeUpdateWindow wraps around the unsigned 64-bit range (yielding 2^64 - 100)
instead of clamping to 0; consequently the clamped value would make an update
due (0 < 50) but the code reports not-due. -/
theorem C2_counterexample :
    (let c : FlowController := { streamID := 1, connectionParameters := testParams, bytesRead := 200, receiveWindow := 100, receiveWindowIncrement := 100, maxReceiveWindowIncrement := 1000 }
     c.receiveWindow < c.bytesRead ∧
     sub64 c.receiveWindow c.bytesRead = U64 - 100 ∧
     c.receiveWindow - c.bytesRead = 0 ∧
     sub64 c.receiveWindow c.bytesRead ≠ c.receiveWindow - c.bytesRead ∧
     c.receiveWindow - c.bytesRead < c.receiveWindowIncrement / 2 ∧
     (MaybeUpdateWindow c 0 0).2.1 = false) := by
  decide

/-- Claim C2 (amended): only the send-side subtraction is guarded:
SendWindowSize clamps to 0 whenever bytesSent exceeds the effective window,
but the remaining-window subtraction performed by MaybeUpdateWindow is
unguarded unsigned 64-bit subtraction, which for every state with
bytesRead > receiveWindow (operands in uint64 range) wraps to
2^64 - (bytesRead - receiveWindow) rather than clamping. -/
theorem C2_underflow_guards (c : FlowController)
    (h1 : c.receiveWindow < c.bytesRead) (h2 : c.bytesRead < U64) :
    sub64 c.receiveWindow c.bytesRead = U64 - (c.bytesRead - c.receiveWindow) ∧
    (∀ d : FlowController, getSendWindow d < d.bytesSent → SendWindowSize d = 0) := by
  have hU : U64 = 18446744073709551616 := by norm_num [U64]
  constructor
  · unfold sub64
    rw [hU] at h2 ⊢
    omega
  · intro d hd
    simp only [SendWindowSize]
    rw [if_pos hd]

/-- Witness for C2 (amended): the wrapped value at receiveWindow 100 and
bytesRead 200, and the clamped send-window size of a stream controller that
sent 500 bytes against an effective window of 100. -/
theorem C2_underflow_guards_witness :
    sub64 100 200 = U64 - 100 ∧
    SendWindowSize { streamID := 1, connectionParameters := testParams, bytesSent := 500 } = 0 := by
  have h := C2_underflow_guards { streamID := 1, connectionParameters := testParams, bytesRead := 200, receiveWindow := 100 } (by decide) (by decide)
  exact ⟨h.1, h.2 _ (by decide)⟩

/-- Counterexample to claim C3 as stated: with increment = cap = 2^63, a
previous update recorded and elapsed time below twice the smoothed RTT, the
growth branch runs, but the unsigned 64-bit doubling overflows to 0, so the
stored increment becomes min(0, 2^63) = 0: it is not
min(2 x increment, cap) = 2^63, and the increment strictly decreases. -/
theorem C3_counterexample :
    (let c : FlowController := { streamID := 1, connectionParameters := testParams, lastWindowUpdateTime := some 0, receiveWindowIncrement := 2 ^ 63, maxReceiveWindowIncrement := 2 ^ 63 }
     (maybeAdjustWindowIncrement c 0 1).receiveWindowIncrement = 0 ∧
     (maybeAdjustWindowIncrement c 0 1).receiveWindowIncrement < c.receiveWindowIncrement ∧
     (maybeAdjustWindowIncrement c 0 1).receiveWindowIncrement ≠
       min (2 * c.receiveWindowIncrement) c.maxReceiveWindowIncrement) := by
  decide

/-- Claim C3 (amended): the auto-tuning step leaves receiveWindowIncrement
unchanged when lastWindowUpdateTime is the zero value, when smoothedRTT is
zero, or when the elapsed time is at least 2 x smoothedRTT; otherwise it sets
receiveWindowIncrement = min((2 x receiveWindowIncrement) mod 2^64,
maxReceiveWindowIncrement): the doubling is the code's unsigned 64-bit
multiplication.  It never decreases the increment provided
receiveWindowIncrement ≤ maxReceiveWindowIncrement and the doubling does not
overflow. -/
theorem C3_adjustWindowIncrement_branches (c : FlowController) (now : Int) (smoothedRTT : Nat) :
    (c.lastWindowUpdateTime = none → maybeAdjustWindowIncrement c now smoothedRTT = c) ∧
    (smoothedRTT = 0 → maybeAdjustWindowIncrement c now smoothedRTT = c) ∧
    (∀ t : Int, c.lastWindowUpdateTime = some t → smoothedRTT ≠ 0 →
      now - t ≥ 2 * (smoothedRTT : Int) → maybeAdjustWindowIncrement c now smoothedRTT = c) ∧
    (∀ t : Int, c.lastWindowUpdateTime = some t → smoothedRTT ≠ 0 →
      now - t < 2 * (smoothedRTT : Int) →
      maybeAdjustWindowIncrement c now smoothedRTT =
        { c with receiveWindowIncrement := min (2 * c.receiveWindowIncrement % U64) c.maxReceiveWindowIncrement }) ∧
    (c.receiveWindowIncrement ≤ c.maxReceiveWindowIncrement → 2 * c.receiveWindowIncrement < U64 →
      c.receiveWindowIncrement ≤ (maybeAdjustWindowIncrement c now smoothedRTT).receiveWindowIncrement) := by
  refine ⟨?_, ?_, ?_, ?_, maybeAdjustWindowIncrement_ge c now smoothedRTT⟩
  · intro h
    unfold maybeAdjustWindowIncrement
    rw [h]
  · intro h
    unfold maybeAdjustWindowIncrement
    rcases c.lastWindowUpdateTime with _ | t
    · rfl
    · dsimp only
      rw [if_pos h]
  · intro t ht hr he
    unfold maybeAdjustWindowIncrement
    rw [ht]
    dsimp only
    rw [if_neg hr, if_pos he]
  · intro t ht hr he
    unfold maybeAdjustWindowIncrement
    rw [ht]
    dsimp only
    rw [if_neg hr, if_neg (not_le.mpr he)]

/-- Witness for C3 (amended): all five conjuncts at concrete states: no prior
update; smoothedRTT 0; elapsed 10 ≥ 2; elapsed 1 < 2 doubling 100 to 200
(capped at 1000); and the doubled increment is at least the old one. -/
theorem C3_adjustWindowIncrement_branches_witness :
    maybeAdjustWindowIncrement { streamID := 1, connectionParameters := testParams } 5 7 = { streamID := 1, connectionParameters := testParams } ∧
    maybeAdjustWindowIncrement { streamID := 1, connectionParameters := testParams, lastWindowUpdateTime := some 0, receiveWindowIncrement := 100, maxReceiveWindowIncrement := 1000 } 5 0 = { streamID := 1, connectionParameters := testParams, lastWindowUpdateTime := some 0, receiveWindowIncrement := 100, maxReceiveWindowIncrement := 1000 } ∧
    maybeAdjustWindowIncrement { streamID := 1, connectionParameters := testParams, lastWindowUpdateTime := some 0, receiveWindowIncrement := 100, maxReceiveWindowIncrement := 1000 } 10 1 = { streamID := 1, connectionParameters := testParams, lastWindowUpdateTime := some 0, receiveWindowIncrement := 100, maxReceiveWindowIncrement := 1000 } ∧
    maybeAdjustWindowIncrement { streamID := 1, connectionParameters := testParams, lastWindowUpdateTime := some 0, receiveWindowIncrement := 100, maxReceiveWindowIncrement := 1000 } 1 1 = { streamID := 1, connectionParameters := testParams, lastWindowUpdateTime := some 0, receiveWindowIncrement := 200, maxReceiveWindowIncrement := 1000 } ∧
    100 ≤ (maybeAdjustWindowIncrement { streamID := 1, connectionParameters := testParams, lastWindowUpdateTime := some 0, receiveWindowIncrement := 100, maxReceiveWindowIncrement := 1000 } 1 1).receiveWindowIncrement := by
  refine ⟨(C3_adjustWindowIncrement_branches _ 5 7).1 rfl,
    (C3_adjustWindowIncrement_branches _ 5 0).2.1 rfl,
    (C3_adjustWindowIncrement_branches _ 10 1).2.2.1 0 rfl (by decide) (by decide),
    ?_,
    (C3_adjustWindowIncrement_branches { streamID := 1, connectionParameters := testParams, lastWindowUpdateTime := some 0, receiveWindowIncrement := 100, maxReceiveWindowIncrement := 1000 } 1 1).2.2.2.2 (by decide) (by decide)⟩
  have h := (C3_adjustWindowIncrement_branches { streamID := 1, connectionParameters := testParams, lastWindowUpdateTime := some 0, receiveWindowIncrement := 100, maxReceiveWindowIncrement := 1000 } 1 1).2.2.2.1 0 rfl (by decide) (by decide)
  rw [h]
  decide

/-- One interface call preserves the invariant increment ≤ maximum increment. -/
theorem stepOp_increment_le_max (c : FlowController) (op : FlowOp)
    (h : c.receiveWindowIncrement ≤ c.maxReceiveWindowIncrement) :
    (stepOp c op).receiveWindowIncrement ≤ (stepOp c op).maxReceiveWindowIncrement := by
  cases op with
  | updateSendWindow newOffset =>
    simp only [stepOp, UpdateSendWindow]
    split <;> exact h
  | updateHighestReceived byteOffset =>
    simp only [stepOp, UpdateHighestReceived]
    split
    · exact h
    · split <;> exact h
  | maybeUpdateWindow now smoothedRTT =>
    simp only [stepOp, MaybeUpdateWindow]
    split
    · dsimp only
      rw [maybeAdjustWindowIncrement_max]
      exact maybeAdjustWindowIncrement_le_max c now smoothedRTT h
    · exact h
  | _ => exact h

/-- Any sequence of interface calls preserves increment ≤ maximum increment. -/
theorem runOps_increment_le_max (ops : List FlowOp) (c : FlowController)
    (h : c.receiveWindowIncrement ≤ c.maxReceiveWindowIncrement) :
    (runOps c ops).receiveWindowIncrement ≤ (runOps c ops).maxReceiveWindowIncrement := by
  induction ops generalizing c with
  | nil => exact h
  | cons op ops ih => exact ih (stepOp c op) (stepOp_increment_le_max c op h)

/-- Claim C4: for every controller produced by construction and every sequence
of interface operations, receiveWindowIncrement ≤ maxReceiveWindowIncrement
holds at all times, including immediately after construction (the empty
sequence).  The hypotheses are modelled from the spec: construction reads the
initial and maximum window sizes of the scope from the parameters source,
which negotiates an initial window no larger than the maximum; the parameters
manager itself is outside this excerpt. -/
theorem C4_increment_le_max_invariant (streamID : Nat) (p : ConnectionParametersManager)
    (ops : List FlowOp)
    (hstream : p.getReceiveStreamFlowControlWindow ≤ p.getMaxReceiveStreamFlowControlWindow)
    (hconn : p.getReceiveConnectionFlowControlWindow ≤ p.getMaxReceiveConnectionFlowControlWindow) :
    (runOps (newFlowController streamID p) ops).receiveWindowIncrement ≤
      (runOps (newFlowController streamID p) ops).maxReceiveWindowIncrement := by
  apply runOps_increment_le_max
  unfold newFlowController
  split
  · exact hconn
  · exact hstream

/-- Witness for C4: a stream controller driven through two triggered window
updates, the second with a non-zero RTT. -/
theorem C4_increment_le_max_invariant_witness :
    (runOps (newFlowController 1 testParams) [FlowOp.addBytesRead 60, FlowOp.maybeUpdateWindow 5 0, FlowOp.addBytesRead 60, FlowOp.maybeUpdateWindow 6 1]).receiveWindowIncrement ≤
      (runOps (newFlowController 1 testParams) [FlowOp.addBytesRead 60, FlowOp.maybeUpdateWindow 5 0, FlowOp.addBytesRead 60, FlowOp.maybeUpdateWindow 6 1]).maxReceiveWindowIncrement :=
  C4_increment_le_max_invariant 1 testParams
    [FlowOp.addBytesRead 60, FlowOp.maybeUpdateWindow 5 0, FlowOp.addBytesRead 60, FlowOp.maybeUpdateWindow 6 1]
    (by decide) (by decide)

/-- Counterexample to claim C9 as stated: a reachable trace on which
receiveWindow decreases.  A connection controller constructed with initial
window = maximum increment = 2^63 reads 2^63 - 1 bytes, triggers an update
(receiveWindow becomes 2^64 - 1), reads another 2^63 bytes, and triggers a
second update: the unsigned 64-bit addition bytesRead + increment wraps, and
receiveWindow drops from 2^64 - 1 to 2^63 - 1. -/
theorem C9_counterexample :
    (let p : ConnectionParametersManager := ⟨1000, 1000, 2 ^ 63, 2 ^ 63, 1000, 1000⟩
     let c3 := runOps (newFlowController 0 p) [FlowOp.addBytesRead (2 ^ 63 - 1), FlowOp.maybeUpdateWindow 0 0, FlowOp.addBytesRead (2 ^ 63)]
     (stepOp c3 (FlowOp.maybeUpdateWindow 0 0)).receiveWindow < c3.receiveWindow) := by
  decide

/-- Claim C9 (amended): receiveWindow is non-decreasing across every interface
operation from any state in which the window arithmetic cannot overflow uint64:
receiveWindowIncrement ≤ maxReceiveWindowIncrement, receiveWindow < 2^64, and
bytesRead + 2 x maxReceiveWindowIncrement < 2^64.  (With full 64-bit
wraparound a reachable trace can decrease it.) -/
theorem C9_receiveWindow_monotone_step (c : FlowController) (op : FlowOp)
    (h1 : c.receiveWindowIncrement ≤ c.maxReceiveWindowIncrement)
    (h2 : c.receiveWindow < U64)
    (h3 : c.bytesRead + 2 * c.maxReceiveWindowIncrement < U64) :
    c.receiveWindow ≤ (stepOp c op).receiveWindow := by
  have hU : U64 = 18446744073709551616 := by norm_num [U64]
  rw [hU] at h2 h3
  cases op with
  | updateSendWindow newOffset =>
    simp only [stepOp, UpdateSendWindow]
    split <;> exact le_refl _
  | updateHighestReceived byteOffset =>
    simp only [stepOp, UpdateHighestReceived]
    split
    · exact le_refl _
    · split <;> exact le_refl _
  | maybeUpdateWindow now smoothedRTT =>
    simp only [stepOp, MaybeUpdateWindow]
    split
    case isTrue hdue =>
      dsimp only
      rw [maybeAdjustWindowIncrement_bytesRead]
      have hIle := maybeAdjustWindowIncrement_le_max c now smoothedRTT h1
      have hIge := maybeAdjustWindowIncrement_ge c now smoothedRTT h1 (by rw [hU]; omega)
      unfold sub64 at hdue
      unfold add64
      rw [hU] at hdue ⊢
      omega
    case isFalse => exact le_refl _
  | _ => exact le_refl _

/-- Witness for C9 (amended): a triggered window update on a stream controller
that has read 60 of its 100-byte window: receiveWindow grows from 100 to 160. -/
theorem C9_receiveWindow_monotone_step_witness :
    (AddBytesRead (newFlowController 1 testParams) 60).receiveWindow ≤
      (stepOp (AddBytesRead (newFlowController 1 testParams) 60) (FlowOp.maybeUpdateWindow 5 0)).receiveWindow :=
  C9_receiveWindow_monotone_step (AddBytesRead (newFlowController 1 testParams) 60)
    (FlowOp.maybeUpdateWindow 5 0) (by decide) (by decide) (by decide)
